import Mathlib

/-!
Verification of the integresql client (client.go) against its specification.

The client is embedded shallowly: each Go method becomes a pure Lean function
of the HTTP exchange it performs (the transport collaborator's answer is an
input), and the side-effectful call structure of the setup-once wrappers is
embedded as an explicit event trace.  HTTP status codes are plain naturals
(200 OK, 202 Accepted, 204 NoContent, 404 NotFound, 410 Gone, 423 Locked,
503 ServiceUnavailable).
-/

set_option autoImplicit false

namespace IntegresSQL

/-- A JSON value, the shape of a response body handed to the codec. -/
inductive Json where
  | null
  | bool (b : Bool)
  | num (n : Int)
  | str (s : String)
  | arr (elems : List Json)
  | obj (fields : List (String × Json))

/-- First binding of a key in a JSON object's field list. -/
def jsonField (fields : List (String × Json)) (k : String) : Option Json :=
  match fields with
  | [] => none
  | (k2, v) :: rest => if k2 = k then some v else jsonField rest k

/-- Modelled from the spec: the models package (pkg/models) is not in src.
Per the spec a connection descriptor has host, port, credentials and a
database name, enough to build a connection string. -/
structure DatabaseConfig where
  Host : String
  Port : Int
  Username : String
  Password : String
  Database : String
deriving DecidableEq

/-- Go zero value of the connection descriptor. -/
def DatabaseConfig.zero : DatabaseConfig :=
  { Host := "", Port := 0, Username := "", Password := "", Database := "" }

/-- Modelled from the spec: building the connection string is a derived,
side-effect-free, deterministic function of the descriptor's fields. -/
def DatabaseConfig.ConnectionString (c : DatabaseConfig) : String :=
  "postgres://" ++ c.Username ++ ":" ++ c.Password ++ "@" ++ c.Host ++ ":"
    ++ toString c.Port ++ "/" ++ c.Database

/-- Modelled from the spec: one template's state as known to the manager —
the hash plus a connection descriptor. -/
structure TemplateDatabase where
  TemplateHash : String
  Config : DatabaseConfig
deriving DecidableEq

/-- Go zero value of a template descriptor. -/
def TemplateDatabase.zero : TemplateDatabase :=
  { TemplateHash := "", Config := DatabaseConfig.zero }

/-- Modelled from the spec: one checked-out clone — a numeric identifier
unique within its template plus a connection descriptor. -/
structure TestDatabase where
  ID : Int
  Config : DatabaseConfig
deriving DecidableEq

/-- Go zero value of a test-database descriptor. -/
def TestDatabase.zero : TestDatabase :=
  { ID := 0, Config := DatabaseConfig.zero }

/-- encoding/json semantics for a string field of a struct: an absent field
or JSON null leaves the Go zero value, a JSON string overwrites it, and any
other JSON value is a type error. -/
def decodeStrField (fields : List (String × Json)) (k : String) : Option String :=
  match jsonField fields k with
  | none => some ""
  | some Json.null => some ""
  | some (Json.str s) => some s
  | some _ => none

/-- encoding/json semantics for an integer field of a struct. -/
def decodeIntField (fields : List (String × Json)) (k : String) : Option Int :=
  match jsonField fields k with
  | none => some 0
  | some Json.null => some 0
  | some (Json.num n) => some n
  | some _ => none

/-- Modelled from the spec: decoding a connection descriptor from a JSON
object, with encoding/json struct semantics (missing fields keep zero
values, JSON null is a no-op, a non-object value is a decode error). -/
def decodeDatabaseConfig : Json → Option DatabaseConfig
  | Json.null => some DatabaseConfig.zero
  | Json.obj fields =>
    match decodeStrField fields "host", decodeIntField fields "port",
          decodeStrField fields "username", decodeStrField fields "password",
          decodeStrField fields "database" with
    | some h, some p, some u, some pw, some d =>
      some { Host := h, Port := p, Username := u, Password := pw, Database := d }
    | _, _, _, _, _ => none
  | _ => none

/-- Modelled from the spec: decoding a template descriptor (hash plus
connection descriptor) with encoding/json struct semantics. -/
def decodeTemplateDatabase : Json → Option TemplateDatabase
  | Json.null => some TemplateDatabase.zero
  | Json.obj fields =>
    match decodeStrField fields "templateHash" with
    | none => none
    | some h =>
      match jsonField fields "config" with
      | none => some { TemplateHash := h, Config := DatabaseConfig.zero }
      | some cj =>
        match decodeDatabaseConfig cj with
        | none => none
        | some c => some { TemplateHash := h, Config := c }
  | _ => none

/-- Modelled from the spec: decoding a test-database descriptor (numeric id
plus connection descriptor) with encoding/json struct semantics. -/
def decodeTestDatabase : Json → Option TestDatabase
  | Json.null => some TestDatabase.zero
  | Json.obj fields =>
    match decodeIntField fields "id" with
    | none => none
    | some i =>
      match jsonField fields "config" with
      | none => some { ID := i, Config := DatabaseConfig.zero }
      | some cj =>
        match decodeDatabaseConfig cj with
        | none => none
        | some c => some { ID := i, Config := c }
  | _ => none

/-- encoding/json decoding into a Go string destination: a JSON string
overwrites it, the JSON literal null is a documented no-op that produces no
error (the destination keeps its zero value, the only value it ever holds
at the call site), and any other JSON value is a type error. -/
def decodeString : Json → Option String
  | Json.str s => some s
  | Json.null => some ""
  | _ => none

/-- What the transport collaborator hands back for one request: either a
connectivity failure (client.Do returned a non-nil error) or a completed
exchange with a status code, a status line and a body. -/
inductive Exchange where
  | transportFailure (msg : String)
  | completed (statusCode : Nat) (status : String) (body : Json)

/-- The Go error values this client can return: the five errors.New
sentinels of client.go, the fmt.Errorf results of the status switches and
of ResetAllTracking, plus transport failures, JSON decode failures, and
errors originating outside the client (callbacks, database/sql). -/
inductive Err where
  | ManagerNotReady
  | TemplateAlreadyInitialized
  | TemplateNotFound
  | DatabaseDiscarded
  | TestNotFound
  | UnexpectedStatus (code : Nat) (status : String)
  | Transport (msg : String)
  | Decode
  | ResetFailed (msg : String)
  | External (msg : String)
deriving DecidableEq

/-- Embedding of (c *Client).do: on a transport failure the error is
returned; on a completed exchange with an Accepted (202) or NoContent (204)
status, or with a nil destination, decoding is skipped and the destination
is returned unchanged; otherwise the body is decoded into the destination,
a failure to decode being an error.  The raw status code and status line
are returned alongside. -/
def doExch {T : Type} (decode : Json → Option T) (exch : Exchange) (v : Option T) :
    Except Err (Nat × String × Option T) :=
  match exch with
  | Exchange.transportFailure m => Except.error (Err.Transport m)
  | Exchange.completed code st body =>
    if code = 202 ∨ code = 204 then Except.ok (code, st, v)
    else
      match v with
      | none => Except.ok (code, st, none)
      | some _ =>
        match decode body with
        | some t => Except.ok (code, st, some t)
        | none => Except.error Err.Decode

/-- Embedding of ResetAllTracking: a string destination, success exactly on
NoContent, otherwise the fmt.Errorf message built from whatever was decoded
into msg. -/
def ResetAllTracking (exch : Exchange) : Option Err :=
  match doExch decodeString exch (some "") with
  | Except.error e => some e
  | Except.ok (code, _, v) =>
    if code = 204 then none
    else some (Err.ResetFailed (v.getD ""))

/-- Embedding of InitializeTemplate: decodes into a zero TemplateDatabase,
then switches on the status code (200 OK, 423 Locked, 503 Service
Unavailable, default). -/
def InitializeTemplate (exch : Exchange) : TemplateDatabase × Option Err :=
  match doExch decodeTemplateDatabase exch (some TemplateDatabase.zero) with
  | Except.error e => (TemplateDatabase.zero, some e)
  | Except.ok (code, st, v) =>
    let template := v.getD TemplateDatabase.zero
    if code = 200 then (template, none)
    else if code = 423 then (template, some Err.TemplateAlreadyInitialized)
    else if code = 503 then (template, some Err.ManagerNotReady)
    else (template, some (Err.UnexpectedStatus code st))

/-- Embedding of DiscardTemplate: nil destination, then the 204/404/503
status switch. -/
def DiscardTemplate (exch : Exchange) : Option Err :=
  match doExch (fun _ => (none : Option Unit)) exch none with
  | Except.error e => some e
  | Except.ok (code, st, _) =>
    if code = 204 then none
    else if code = 404 then some Err.TemplateNotFound
    else if code = 503 then some Err.ManagerNotReady
    else some (Err.UnexpectedStatus code st)

/-- Embedding of FinalizeTemplate: nil destination, then the 204/404/503
status switch. -/
def FinalizeTemplate (exch : Exchange) : Option Err :=
  match doExch (fun _ => (none : Option Unit)) exch none with
  | Except.error e => some e
  | Except.ok (code, st, _) =>
    if code = 204 then none
    else if code = 404 then some Err.TemplateNotFound
    else if code = 503 then some Err.ManagerNotReady
    else some (Err.UnexpectedStatus code st)

/-- Embedding of GetTestDatabase: decodes into a zero TestDatabase, then
the 200/404/410/503 status switch. -/
def GetTestDatabase (exch : Exchange) : TestDatabase × Option Err :=
  match doExch decodeTestDatabase exch (some TestDatabase.zero) with
  | Except.error e => (TestDatabase.zero, some e)
  | Except.ok (code, st, v) =>
    let test := v.getD TestDatabase.zero
    if code = 200 then (test, none)
    else if code = 404 then (test, some Err.TemplateNotFound)
    else if code = 410 then (test, some Err.DatabaseDiscarded)
    else if code = 503 then (test, some Err.ManagerNotReady)
    else (test, some (Err.UnexpectedStatus code st))

/-- Embedding of ReturnTestDatabase: nil destination, then the 204/404/503
status switch. -/
def ReturnTestDatabase (exch : Exchange) : Option Err :=
  match doExch (fun _ => (none : Option Unit)) exch none with
  | Except.error e => some e
  | Except.ok (code, st, _) =>
    if code = 204 then none
    else if code = 404 then some Err.TemplateNotFound
    else if code = 503 then some Err.ManagerNotReady
    else some (Err.UnexpectedStatus code st)

/-- The observable calls the setup-once wrappers make, in order: the call
into InitializeTemplate, the populate callback (with the connection string
it was handed), FinalizeTemplate, and — for the database/sql variant —
sql.Open, db.PingContext, the callback on the live handle, and db.Close. -/
inductive Event where
  | initCall
  | populateCall (conn : String)
  | finalizeCall
  | openCall (conn : String)
  | pingCall
  | populateDBCall
  | closeCall
deriving DecidableEq

/-- Embedding of SetupTemplate, with its call structure made explicit as an
event trace.  The two exchanges are the transport's answers to the
InitializeTemplate request and (if reached) the FinalizeTemplate request;
populate is the caller's callback, returning nil (none) or an error. -/
def SetupTemplate (initExch finalExch : Exchange) (populate : String → Option Err) :
    Option Err × List Event :=
  match InitializeTemplate initExch with
  | (template, none) =>
    let conn := template.Config.ConnectionString
    match populate conn with
    | some e => (some e, [Event.initCall, Event.populateCall conn])
    | none =>
      (FinalizeTemplate finalExch,
       [Event.initCall, Event.populateCall conn, Event.finalizeCall])
  | (_, some Err.TemplateAlreadyInitialized) => (none, [Event.initCall])
  | (_, some e) => (some e, [Event.initCall])

/-- Embedding of SetupTemplateWithDBClient.  The live handle is opaque, so
sql.Open, db.PingContext and the callback are represented by their error
outcomes; db.Close (run by defer once the handle was opened) is a trace
event. -/
def SetupTemplateWithDBClient (initExch finalExch : Exchange)
    (openErr pingErr populateErr : Option Err) : Option Err × List Event :=
  match InitializeTemplate initExch with
  | (template, none) =>
    let conn := template.Config.ConnectionString
    match openErr with
    | some e => (some e, [Event.initCall, Event.openCall conn])
    | none =>
      match pingErr with
      | some e =>
        (some e, [Event.initCall, Event.openCall conn, Event.pingCall, Event.closeCall])
      | none =>
        match populateErr with
        | some e =>
          (some e, [Event.initCall, Event.openCall conn, Event.pingCall,
                    Event.populateDBCall, Event.closeCall])
        | none =>
          (FinalizeTemplate finalExch,
           [Event.initCall, Event.openCall conn, Event.pingCall,
            Event.populateDBCall, Event.finalizeCall, Event.closeCall])
  | (_, some Err.TemplateAlreadyInitialized) => (none, [Event.initCall])
  | (_, some e) => (some e, [Event.initCall])

/-! ### Request paths

newRequest targets baseURL.ResolveReference with path
`path.Join(c.baseURL.Path, endpoint)`, so two operations whose joined
paths coincide address the same resource.  Go's path.Join concatenates its
non-empty elements with "/" and runs path.Clean on the result; path.Clean
collapses repeated slashes, drops "." segments, resolves ".." segments,
and removes any trailing slash. -/

/-- Split a character list on every slash (Go strings.Split on "/"). -/
def splitSegs : List Char → List (List Char)
  | [] => [[]]
  | c :: cs =>
    if c = '/' then [] :: splitSegs cs
    else
      match splitSegs cs with
      | [] => [[c]]
      | s :: ss => (c :: s) :: ss

/-- A segment survives cleaning when it is neither empty nor ".". -/
def segKeep (s : List Char) : Bool :=
  decide (s ≠ [] ∧ s ≠ ['.'])

/-- Resolve ".." segments the way path.Clean does: an inner ".." removes
the preceding segment; a leading ".." is dropped on a rooted path and kept
on a relative one.  The accumulator holds the output segments reversed. -/
def resolveDots (rooted : Bool) : List (List Char) → List (List Char) → List (List Char)
  | acc, [] => acc.reverse
  | acc, s :: rest =>
    if s = ['.', '.'] then
      match acc with
      | [] =>
        if rooted then resolveDots rooted [] rest
        else resolveDots rooted [s] rest
      | t :: acc2 =>
        if t = ['.', '.'] then resolveDots rooted (s :: t :: acc2) rest
        else resolveDots rooted acc2 rest
    else resolveDots rooted (s :: acc) rest

/-- Interleave the segments with single slashes. -/
def joinSegs : List (List Char) → List Char
  | [] => []
  | [s] => s
  | s :: rest => s ++ '/' :: joinSegs rest

/-- Model of Go path.Clean, on the character list of the path. -/
def pathCleanList : List Char → String
  | [] => "."
  | c :: cs =>
    let out := resolveDots (decide (c = '/')) [] ((splitSegs (c :: cs)).filter segKeep)
    if c = '/' then String.mk ('/' :: joinSegs out)
    else if out = [] then "."
    else String.mk (joinSegs out)

/-- Model of Go path.Clean. -/
def pathClean (p : String) : String :=
  pathCleanList p.data

/-- Model of Go path.Join on two elements: empty elements are skipped
before joining with "/", and the result is cleaned. -/
def pathJoin2 (a b : String) : String :=
  if a = "" then
    if b = "" then "" else pathClean b
  else pathClean (a ++ "/" ++ b)

/-- The path InitializeTemplate posts to: endpoint "/templates". -/
def templatesEndpointPath (basePath : String) : String :=
  pathJoin2 basePath "/templates"

/-- The path DiscardTemplate and FinalizeTemplate target: endpoint
fmt.Sprintf on "/templates/%s" and the hash. -/
def templateHashEndpointPath (basePath hash : String) : String :=
  pathJoin2 basePath ("/templates/" ++ hash)

/-- The path GetTestDatabase targets: endpoint fmt.Sprintf on
"/templates/%s/tests" and the hash. -/
def testsEndpointPath (basePath hash : String) : String :=
  pathJoin2 basePath ("/templates/" ++ hash ++ "/tests")

/-- The five errors.New sentinel values declared at the top of client.go. -/
def Err.isNamedSentinel : Err → Bool
  | Err.ManagerNotReady => true
  | Err.TemplateAlreadyInitialized => true
  | Err.TemplateNotFound => true
  | Err.DatabaseDiscarded => true
  | Err.TestNotFound => true
  | _ => false

/-! ### Lemmas about the codec core -/

theorem doExch_nil_dest {T : Type} (decode : Json → Option T)
    (code : Nat) (st : String) (body : Json) :
    doExch decode (Exchange.completed code st body) none = Except.ok (code, st, none) := by
  simp only [doExch]
  split <;> rfl

theorem doExch_error_cases {T : Type} (decode : Json → Option T)
    (exch : Exchange) (v : Option T) (e : Err)
    (h : doExch decode exch v = Except.error e) :
    e = Err.Decode ∨ ∃ m, e = Err.Transport m := by
  cases exch with
  | transportFailure m =>
    simp only [doExch, Except.error.injEq] at h
    exact Or.inr ⟨m, h.symm⟩
  | completed code st body =>
    simp only [doExch] at h
    split at h
    · exact absurd h (by simp)
    · cases v with
      | none => exact absurd h (by simp)
      | some v0 =>
        cases hd : decode body with
        | none => rw [hd] at h; simp at h; exact Or.inl h.symm
        | some t => rw [hd] at h; simp at h

theorem ResetAllTracking_completed (code : Nat) (st : String) (body : Json) :
    ResetAllTracking (Exchange.completed code st body) =
      if code = 204 then none
      else if code = 202 then some (Err.ResetFailed "")
      else
        match decodeString body with
        | some s => some (Err.ResetFailed s)
        | none => some Err.Decode := by
  by_cases h204 : code = 204
  · subst h204
    simp [ResetAllTracking, doExch]
  · by_cases h202 : code = 202
    · subst h202
      simp [ResetAllTracking, doExch]
    · have h24 : ¬(code = 202 ∨ code = 204) := by
        intro h; rcases h with h | h
        · exact h202 h
        · exact h204 h
      cases hd : decodeString body <;>
        simp [ResetAllTracking, doExch, h24, hd, h202, h204]

/-! ### Lemmas about path joining -/

theorem splitSegs_ne_nil : ∀ l : List Char, splitSegs l ≠ [] := by
  intro l
  cases l with
  | nil => simp [splitSegs]
  | cons c cs =>
    simp only [splitSegs]
    by_cases hc : c = '/'
    · simp [hc]
    · rcases h : splitSegs cs with _ | ⟨s, ss⟩ <;> simp [hc, h]

theorem splitSegs_append (a b : List Char) :
    splitSegs (a ++ '/' :: b) = splitSegs a ++ splitSegs b := by
  induction a with
  | nil => simp [splitSegs]
  | cons c cs ih =>
    simp only [List.cons_append, splitSegs]
    by_cases hc : c = '/'
    · simp [hc, ih]
    · rcases h : splitSegs cs with _ | ⟨s, ss⟩
      · exact absurd h (splitSegs_ne_nil cs)
      · have h2 : splitSegs (cs ++ '/' :: b) = s :: (ss ++ splitSegs b) := by
          rw [ih, h]; rfl
        simp [hc, h2, h]

theorem pathCleanList_congr (c : Char) (l1 l2 : List Char)
    (hs : (splitSegs (c :: l1)).filter segKeep = (splitSegs (c :: l2)).filter segKeep) :
    pathCleanList (c :: l1) = pathCleanList (c :: l2) := by
  simp only [pathCleanList]
  rw [hs]

theorem pathJoin2_congr (base e1 e2 : String) (c : Char) (l1 l2 : List Char)
    (he1 : e1.data = c :: l1) (he2 : e2.data = c :: l2)
    (hs : (splitSegs (c :: l1)).filter segKeep = (splitSegs (c :: l2)).filter segKeep) :
    pathJoin2 base e1 = pathJoin2 base e2 := by
  have hne1 : e1 ≠ "" := by
    intro h; rw [h] at he1; exact List.noConfusion he1
  have hne2 : e2 ≠ "" := by
    intro h; rw [h] at he2; exact List.noConfusion he2
  obtain ⟨bd⟩ := base
  cases bd with
  | nil =>
    show pathJoin2 "" e1 = pathJoin2 "" e2
    simp only [pathJoin2, if_pos rfl, if_neg hne1, if_neg hne2]
    simp only [pathClean]
    rw [he1, he2]
    exact pathCleanList_congr c l1 l2 hs
  | cons b bs =>
    have hne : String.mk (b :: bs) ≠ "" := by
      intro h
      have h2 := congrArg String.data h
      exact List.noConfusion h2
    simp only [pathJoin2, if_neg hne]
    have hd : ∀ e : String, (String.mk (b :: bs) ++ "/" ++ e).data = b :: (bs ++ '/' :: e.data) := by
      intro e
      simp [String.data_append]
    simp only [pathClean]
    rw [hd, hd, he1, he2]
    have hsplit : ∀ l : List Char,
        splitSegs (b :: (bs ++ '/' :: l)) = splitSegs (b :: bs) ++ splitSegs l := by
      intro l
      rw [show b :: (bs ++ '/' :: l) = (b :: bs) ++ '/' :: l from rfl, splitSegs_append]
    apply pathCleanList_congr
    rw [hsplit, hsplit, List.filter_append, List.filter_append, hs]

/-- C10: with the empty hash, the per-hash endpoints collapse under
path.Join: DiscardTemplate and FinalizeTemplate (endpoint "/templates/")
target exactly the collection path InitializeTemplate posts to (endpoint
"/templates", i.e. the trailing slash is removed), and GetTestDatabase
(endpoint "/templates//tests") targets the hash-elided "/templates/tests"
path, never a per-hash resource. -/
theorem emptyHash_paths_collapse (base : String) :
    templateHashEndpointPath base "" = templatesEndpointPath base
    ∧ testsEndpointPath base "" = pathJoin2 base "/templates/tests" := by
  constructor
  · show pathJoin2 base ("/templates/" ++ "") = pathJoin2 base "/templates"
    exact pathJoin2_congr base ("/templates/" ++ "") "/templates" '/'
      "templates/".data "templates".data (by decide) (by decide) (by decide)
  · show pathJoin2 base ("/templates/" ++ "" ++ "/tests") = pathJoin2 base "/templates/tests"
    exact pathJoin2_congr base ("/templates/" ++ "" ++ "/tests") "/templates/tests" '/'
      "templates//tests".data "templates/tests".data (by decide) (by decide) (by decide)

theorem FinalizeTemplate_ne_tnf (exch : Exchange) :
    FinalizeTemplate exch ≠ some Err.TestNotFound := by
  cases exch with
  | transportFailure m => simp [FinalizeTemplate, doExch]
  | completed code st body =>
    simp only [FinalizeTemplate, doExch_nil_dest]
    split_ifs <;> simp

theorem InitializeTemplate_snd_ne_tnf (exch : Exchange) :
    (InitializeTemplate exch).2 ≠ some Err.TestNotFound := by
  intro h
  cases exch with
  | transportFailure m => simp [InitializeTemplate, doExch] at h
  | completed code st body =>
    by_cases h24 : code = 202 ∨ code = 204
    · simp only [InitializeTemplate, doExch, if_pos h24] at h
      split_ifs at h <;> simp_all
    · cases hd : decodeTemplateDatabase body with
      | none => simp [InitializeTemplate, doExch, h24, hd] at h
      | some t =>
        simp only [InitializeTemplate, doExch, if_neg h24, hd] at h
        split_ifs at h <;> simp_all

theorem GetTestDatabase_snd_ne_tnf (exch : Exchange) :
    (GetTestDatabase exch).2 ≠ some Err.TestNotFound := by
  intro h
  cases exch with
  | transportFailure m => simp [GetTestDatabase, doExch] at h
  | completed code st body =>
    by_cases h24 : code = 202 ∨ code = 204
    · simp only [GetTestDatabase, doExch, if_pos h24] at h
      split_ifs at h <;> simp_all
    · cases hd : decodeTestDatabase body with
      | none => simp [GetTestDatabase, doExch, h24, hd] at h
      | some t =>
        simp only [GetTestDatabase, doExch, if_neg h24, hd] at h
        split_ifs at h <;> simp_all

theorem ResetAllTracking_ne_tnf (exch : Exchange) :
    ResetAllTracking exch ≠ some Err.TestNotFound := by
  cases exch with
  | transportFailure m => simp [ResetAllTracking, doExch]
  | completed code st body =>
    rw [ResetAllTracking_completed]
    split_ifs <;> [simp; simp; skip]
    cases hd : decodeString body <;> simp [hd]

/-- C7: for every completed exchange the codec decodes the body into the
caller-provided destination unless the status code is 202 (accepted) or
204 (no content) or the destination is nil, in which case decoding is
skipped and the destination is returned unchanged; the raw status code is
returned alongside in every non-error case. -/
theorem do_decode_skip_contract {T : Type} (decode : Json → Option T)
    (code : Nat) (st : String) (body : Json) :
    (∀ v : Option T, code = 202 ∨ code = 204 →
        doExch decode (Exchange.completed code st body) v = Except.ok (code, st, v))
    ∧ doExch decode (Exchange.completed code st body) none = Except.ok (code, st, none)
    ∧ (∀ v0 t : T, ¬(code = 202 ∨ code = 204) → decode body = some t →
        doExch decode (Exchange.completed code st body) (some v0)
          = Except.ok (code, st, some t)) := by
  refine ⟨?_, doExch_nil_dest decode code st body, ?_⟩
  · intro v h
    simp [doExch, h]
  · intro v0 t h hd
    simp [doExch, h, hd]

/-- Witness for C7 at concrete inputs: a 202 exchange leaves the
destination untouched, a 500 exchange decodes the body into it. -/
theorem do_decode_skip_contract_witness :
    doExch decodeString (Exchange.completed 202 "202 Accepted" (Json.str "b")) (some "a")
      = Except.ok (202, "202 Accepted", some "a")
    ∧ doExch decodeString (Exchange.completed 500 "500" (Json.str "b")) (some "a")
      = Except.ok (500, "500", some "b") := by
  have h1 := do_decode_skip_contract decodeString 202 "202 Accepted" (Json.str "b")
  have h2 := do_decode_skip_contract decodeString 500 "500" (Json.str "b")
  exact ⟨h1.1 (some "a") (Or.inl rfl), h2.2.2 "a" "b" (by decide) rfl⟩

/-- C3: on a decodable body, InitializeTemplate classifies the status code
as: 200 returns the decoded template descriptor with no error, 423 signals
TemplateAlreadyInitialized, 503 signals ManagerNotReady, and every other
status yields the unexpected-status failure carrying the raw code. -/
theorem InitializeTemplate_status_classification (st : String) (body : Json)
    (t : TemplateDatabase) (hd : decodeTemplateDatabase body = some t) :
    InitializeTemplate (Exchange.completed 200 st body) = (t, none)
    ∧ InitializeTemplate (Exchange.completed 423 st body)
        = (t, some Err.TemplateAlreadyInitialized)
    ∧ InitializeTemplate (Exchange.completed 503 st body) = (t, some Err.ManagerNotReady)
    ∧ (∀ code : Nat, code ≠ 200 → code ≠ 423 → code ≠ 503 →
        (InitializeTemplate (Exchange.completed code st body)).2
          = some (Err.UnexpectedStatus code st)) := by
  refine ⟨?_, ?_, ?_, ?_⟩
  · simp [InitializeTemplate, doExch, hd]
  · simp [InitializeTemplate, doExch, hd]
  · simp [InitializeTemplate, doExch, hd]
  · intro code h200 h423 h503
    by_cases h24 : code = 202 ∨ code = 204
    · simp [InitializeTemplate, doExch, h24, h200, h423, h503]
    · simp [InitializeTemplate, doExch, h24, hd, h200, h423, h503]

/-- Witness for C3: a decodable body at statuses 200, 423 and 500. -/
theorem InitializeTemplate_status_classification_witness :
    InitializeTemplate (Exchange.completed 200 "200 OK" (Json.obj []))
      = (TemplateDatabase.zero, none)
    ∧ InitializeTemplate (Exchange.completed 423 "423 Locked" (Json.obj []))
      = (TemplateDatabase.zero, some Err.TemplateAlreadyInitialized)
    ∧ (InitializeTemplate (Exchange.completed 500 "500" (Json.obj []))).2
      = some (Err.UnexpectedStatus 500 "500") := by
  have h1 := InitializeTemplate_status_classification "200 OK" (Json.obj [])
    TemplateDatabase.zero (by decide)
  have h2 := InitializeTemplate_status_classification "423 Locked" (Json.obj [])
    TemplateDatabase.zero (by decide)
  have h3 := InitializeTemplate_status_classification "500" (Json.obj [])
    TemplateDatabase.zero (by decide)
  exact ⟨h1.1, h2.2.1, h3.2.2.2 500 (by decide) (by decide) (by decide)⟩

/-- C4: on a decodable body, GetTestDatabase returns the decoded test
database on 200, signals TemplateNotFound on 404, DatabaseDiscarded on 410
(a kind distinct from TemplateNotFound), ManagerNotReady on 503, and the
unexpected-status failure carrying the code on any other status. -/
theorem GetTestDatabase_status_classification (st : String) (body : Json)
    (t : TestDatabase) (hd : decodeTestDatabase body = some t) :
    GetTestDatabase (Exchange.completed 200 st body) = (t, none)
    ∧ GetTestDatabase (Exchange.completed 404 st body) = (t, some Err.TemplateNotFound)
    ∧ GetTestDatabase (Exchange.completed 410 st body) = (t, some Err.DatabaseDiscarded)
    ∧ Err.DatabaseDiscarded ≠ Err.TemplateNotFound
    ∧ GetTestDatabase (Exchange.completed 503 st body) = (t, some Err.ManagerNotReady)
    ∧ (∀ code : Nat, code ≠ 200 → code ≠ 404 → code ≠ 410 → code ≠ 503 →
        (GetTestDatabase (Exchange.completed code st body)).2
          = some (Err.UnexpectedStatus code st)) := by
  refine ⟨?_, ?_, ?_, by decide, ?_, ?_⟩
  · simp [GetTestDatabase, doExch, hd]
  · simp [GetTestDatabase, doExch, hd]
  · simp [GetTestDatabase, doExch, hd]
  · simp [GetTestDatabase, doExch, hd]
  · intro code h200 h404 h410 h503
    by_cases h24 : code = 202 ∨ code = 204
    · simp [GetTestDatabase, doExch, h24, h200, h404, h410, h503]
    · simp [GetTestDatabase, doExch, h24, hd, h200, h404, h410, h503]

/-- Witness for C4: a decodable body at statuses 200, 404, 410 and 500. -/
theorem GetTestDatabase_status_classification_witness :
    GetTestDatabase (Exchange.completed 200 "200 OK" (Json.obj []))
      = (TestDatabase.zero, none)
    ∧ GetTestDatabase (Exchange.completed 404 "404" (Json.obj []))
      = (TestDatabase.zero, some Err.TemplateNotFound)
    ∧ GetTestDatabase (Exchange.completed 410 "410" (Json.obj []))
      = (TestDatabase.zero, some Err.DatabaseDiscarded)
    ∧ (GetTestDatabase (Exchange.completed 500 "500" (Json.obj []))).2
      = some (Err.UnexpectedStatus 500 "500") := by
  have h1 := GetTestDatabase_status_classification "200 OK" (Json.obj [])
    TestDatabase.zero (by decide)
  have h2 := GetTestDatabase_status_classification "404" (Json.obj [])
    TestDatabase.zero (by decide)
  have h3 := GetTestDatabase_status_classification "410" (Json.obj [])
    TestDatabase.zero (by decide)
  have h4 := GetTestDatabase_status_classification "500" (Json.obj [])
    TestDatabase.zero (by decide)
  exact ⟨h1.1, h2.2.1, h3.2.2.1, h4.2.2.2.2.2 500 (by decide) (by decide) (by decide) (by decide)⟩

/-- C5: FinalizeTemplate and DiscardTemplate share one status mapping for
every exchange: 204 is success, 404 signals TemplateNotFound (never the
generic unexpected-status failure for that status), 503 signals
ManagerNotReady, and any other status yields the unexpected-status failure
carrying the code. -/
theorem finalize_discard_status_classification :
    (∀ exch : Exchange, FinalizeTemplate exch = DiscardTemplate exch)
    ∧ (∀ (st : String) (body : Json),
        FinalizeTemplate (Exchange.completed 204 st body) = none
        ∧ FinalizeTemplate (Exchange.completed 404 st body) = some Err.TemplateNotFound
        ∧ FinalizeTemplate (Exchange.completed 503 st body) = some Err.ManagerNotReady
        ∧ (∀ code : Nat, code ≠ 204 → code ≠ 404 → code ≠ 503 →
            FinalizeTemplate (Exchange.completed code st body)
              = some (Err.UnexpectedStatus code st))) := by
  refine ⟨fun _ => rfl, ?_⟩
  intro st body
  refine ⟨?_, ?_, ?_, ?_⟩
  · simp [FinalizeTemplate, doExch_nil_dest]
  · simp [FinalizeTemplate, doExch_nil_dest]
  · simp [FinalizeTemplate, doExch_nil_dest]
  · intro code h204 h404 h503
    simp [FinalizeTemplate, doExch_nil_dest, h204, h404, h503]

/-- Witness for C5: the shared mapping at statuses 404 and 500, on both
operations. -/
theorem finalize_discard_status_classification_witness :
    FinalizeTemplate (Exchange.completed 404 "404" Json.null) = some Err.TemplateNotFound
    ∧ DiscardTemplate (Exchange.completed 404 "404" Json.null) = some Err.TemplateNotFound
    ∧ FinalizeTemplate (Exchange.completed 500 "500" Json.null)
        = some (Err.UnexpectedStatus 500 "500") := by
  have h := finalize_discard_status_classification
  have h404 := (h.2 "404" Json.null).2.1
  exact ⟨h404, (h.1 (Exchange.completed 404 "404" Json.null)) ▸ h404,
    (h.2 "500" Json.null).2.2.2 500 (by decide) (by decide) (by decide)⟩

/-- C9: whenever an operation passes a non-nil decode destination
(InitializeTemplate, GetTestDatabase, ResetAllTracking) and the status is
neither 202 nor 204, a body that does not decode into the destination type
makes the call return the decoding failure, and the status-to-error
classification is never applied. -/
theorem decode_failure_preempts_classification (code : Nat) (st : String) (body : Json)
    (h202 : code ≠ 202) (h204 : code ≠ 204) :
    (decodeTemplateDatabase body = none →
      InitializeTemplate (Exchange.completed code st body)
        = (TemplateDatabase.zero, some Err.Decode))
    ∧ (decodeTestDatabase body = none →
      GetTestDatabase (Exchange.completed code st body)
        = (TestDatabase.zero, some Err.Decode))
    ∧ (decodeString body = none →
      ResetAllTracking (Exchange.completed code st body) = some Err.Decode) := by
  have h24 : ¬(code = 202 ∨ code = 204) := by
    intro h
    rcases h with h | h
    · exact h202 h
    · exact h204 h
  refine ⟨?_, ?_, ?_⟩
  · intro hd
    simp [InitializeTemplate, doExch, h24, hd]
  · intro hd
    simp [GetTestDatabase, doExch, h24, hd]
  · intro hd
    simp [ResetAllTracking, doExch, h24, hd]

/-- Witness for C9, realising the claim's own example: a 423 response with
a non-JSON-object body yields the decode failure, not
TemplateAlreadyInitialized. -/
theorem decode_failure_preempts_classification_witness :
    InitializeTemplate (Exchange.completed 423 "423 Locked" (Json.num 7))
      = (TemplateDatabase.zero, some Err.Decode)
    ∧ GetTestDatabase (Exchange.completed 423 "423 Locked" (Json.num 7))
      = (TestDatabase.zero, some Err.Decode)
    ∧ ResetAllTracking (Exchange.completed 423 "423 Locked" (Json.num 7))
      = some Err.Decode := by
  have h := decode_failure_preempts_classification 423 "423 Locked" (Json.num 7)
    (by decide) (by decide)
  exact ⟨h.1 rfl, h.2.1 rfl, h.2.2 rfl⟩

/-- C8 counterexample, at two concrete inputs: on a 202 response the decode
step is skipped, so the generic failure carries an empty diagnostic instead
of the response body; and on a 500 response whose body is a JSON number,
the decode step fails first, so the result is the decode failure, not the
generic failure carrying the body text. -/
theorem ResetAllTracking_accepted_drops_body :
    ResetAllTracking (Exchange.completed 202 "202 Accepted" (Json.str "reset rejected"))
      = some (Err.ResetFailed "")
    ∧ ResetAllTracking (Exchange.completed 202 "202 Accepted" (Json.str "reset rejected"))
      ≠ some (Err.ResetFailed "reset rejected")
    ∧ ResetAllTracking (Exchange.completed 500 "500" (Json.num 7)) = some Err.Decode
    ∧ ResetAllTracking (Exchange.completed 500 "500" (Json.num 7))
      ≠ some (Err.ResetFailed "7") := by
  refine ⟨rfl, by decide, rfl, by decide⟩

/-- C8 as amended: ResetAllTracking succeeds exactly on status 204; on any
other status the result is the generic reset failure carrying the decoded
body text — except that a 202 skips decoding and carries an empty
diagnostic (a JSON null body likewise leaves it empty, since decoding null
into the string destination is a no-op), and a body that is neither a JSON
string nor null is a decode failure instead — and no outcome is ever one
of the five named sentinel kinds. -/
theorem ResetAllTracking_outcomes :
    (∀ (code : Nat) (st : String) (body : Json),
        (ResetAllTracking (Exchange.completed code st body) = none ↔ code = 204))
    ∧ (∀ (code : Nat) (st : String) (body : Json) (s : String),
        code ≠ 202 → code ≠ 204 → decodeString body = some s →
        ResetAllTracking (Exchange.completed code st body) = some (Err.ResetFailed s))
    ∧ (∀ (st : String) (body : Json),
        ResetAllTracking (Exchange.completed 202 st body) = some (Err.ResetFailed ""))
    ∧ (∀ (code : Nat) (st : String) (body : Json),
        code ≠ 202 → code ≠ 204 → decodeString body = none →
        ResetAllTracking (Exchange.completed code st body) = some Err.Decode)
    ∧ (∀ (exch : Exchange) (e : Err),
        ResetAllTracking exch = some e → e.isNamedSentinel = false) := by
  refine ⟨?_, ?_, ?_, ?_, ?_⟩
  · intro code st body
    rw [ResetAllTracking_completed]
    constructor
    · intro h
      by_contra h204
      rw [if_neg h204] at h
      by_cases h202 : code = 202
      · rw [if_pos h202] at h
        exact Option.noConfusion h
      · rw [if_neg h202] at h
        cases hd : decodeString body <;> rw [hd] at h <;> exact Option.noConfusion h
    · intro h
      rw [if_pos h]
  · intro code st body s h202 h204 hd
    rw [ResetAllTracking_completed, if_neg h204, if_neg h202, hd]
  · intro st body
    rw [ResetAllTracking_completed]
    rfl
  · intro code st body h202 h204 hd
    rw [ResetAllTracking_completed, if_neg h204, if_neg h202, hd]
  · intro exch e h
    cases exch with
    | transportFailure m =>
      simp only [ResetAllTracking, doExch, Option.some.injEq] at h
      rw [← h]
      rfl
    | completed code st body =>
      rw [ResetAllTracking_completed] at h
      by_cases h204 : code = 204
      · rw [if_pos h204] at h
        exact Option.noConfusion h
      · rw [if_neg h204] at h
        by_cases h202 : code = 202
        · rw [if_pos h202] at h
          rw [← Option.some.injEq _ _ |>.mp h]
          rfl
        · rw [if_neg h202] at h
          cases hd : decodeString body <;> rw [hd] at h <;>
            rw [← Option.some.injEq _ _ |>.mp h] <;> rfl

/-- Witness for C8 (amended) at concrete inputs: success at 204, a decoded
diagnostic at 500, a decode failure at 500 with a non-string body, and the
diagnostic failure is not a named sentinel. -/
theorem ResetAllTracking_outcomes_witness :
    ResetAllTracking (Exchange.completed 204 "204" Json.null) = none
    ∧ ResetAllTracking (Exchange.completed 500 "500" (Json.str "boom"))
        = some (Err.ResetFailed "boom")
    ∧ ResetAllTracking (Exchange.completed 500 "500" Json.null)
        = some (Err.ResetFailed "")
    ∧ ResetAllTracking (Exchange.completed 500 "500" (Json.num 7)) = some Err.Decode
    ∧ Err.isNamedSentinel (Err.ResetFailed "boom") = false := by
  have h := ResetAllTracking_outcomes
  have hboom := h.2.1 500 "500" (Json.str "boom") "boom" (by decide) (by decide) rfl
  exact ⟨(h.1 204 "204" Json.null).2 rfl, hboom,
    h.2.1 500 "500" Json.null "" (by decide) (by decide) rfl,
    h.2.2.2.1 500 "500" (Json.num 7) (by decide) (by decide) rfl,
    h.2.2.2.2 (Exchange.completed 500 "500" (Json.str "boom")) (Err.ResetFailed "boom") hboom⟩

/-- C1: SetupTemplate first calls InitializeTemplate; on success it invokes
populate with the connection string of the returned template, and calls
FinalizeTemplate only if populate returned no error (a populate error is
returned unchanged, FinalizeTemplate never runs); on
TemplateAlreadyInitialized it returns success without invoking populate;
any other InitializeTemplate error is returned unchanged. -/
theorem SetupTemplate_contract (i f : Exchange) (p : String → Option Err) :
    ((InitializeTemplate i).2 = none →
      (p ((InitializeTemplate i).1.Config.ConnectionString) = none →
        SetupTemplate i f p =
          (FinalizeTemplate f,
           [Event.initCall,
            Event.populateCall ((InitializeTemplate i).1.Config.ConnectionString),
            Event.finalizeCall]))
      ∧ (∀ e : Err, p ((InitializeTemplate i).1.Config.ConnectionString) = some e →
          SetupTemplate i f p =
            (some e,
             [Event.initCall,
              Event.populateCall ((InitializeTemplate i).1.Config.ConnectionString)])
          ∧ Event.finalizeCall ∉ (SetupTemplate i f p).2))
    ∧ ((InitializeTemplate i).2 = some Err.TemplateAlreadyInitialized →
        SetupTemplate i f p = (none, [Event.initCall])
        ∧ (∀ c : String, Event.populateCall c ∉ (SetupTemplate i f p).2))
    ∧ (∀ e : Err, (InitializeTemplate i).2 = some e → e ≠ Err.TemplateAlreadyInitialized →
        SetupTemplate i f p = (some e, [Event.initCall]))
    ∧ (SetupTemplate i f p).2.head? = some Event.initCall := by
  rcases hI : InitializeTemplate i with ⟨t, err⟩
  refine ⟨?_, ?_, ?_, ?_⟩
  · intro h
    have he : err = none := h
    subst he
    constructor
    · intro hp
      have hp2 : p (t.Config.ConnectionString) = none := hp
      simp [SetupTemplate, hI, hp2]
    · intro e hp
      have hp2 : p (t.Config.ConnectionString) = some e := hp
      constructor
      · simp [SetupTemplate, hI, hp2]
      · simp [SetupTemplate, hI, hp2]
  · intro h
    have he : err = some Err.TemplateAlreadyInitialized := h
    subst he
    constructor
    · simp [SetupTemplate, hI]
    · intro c
      simp [SetupTemplate, hI]
  · intro e h hne
    have he : err = some e := h
    subst he
    cases e
    case TemplateAlreadyInitialized => exact absurd rfl hne
    all_goals simp [SetupTemplate, hI]
  · cases err with
    | none =>
      cases hp : p (t.Config.ConnectionString) <;> simp [SetupTemplate, hI, hp]
    | some e =>
      cases e <;> simp [SetupTemplate, hI]

/-- Witness for C1 at concrete inputs: the populate-success path, the
populate-failure path, the already-initializing path (423), and an
unrelated InitializeTemplate failure (503). -/
theorem SetupTemplate_contract_witness :
    SetupTemplate (Exchange.completed 200 "200 OK" (Json.obj []))
        (Exchange.completed 204 "204 No Content" Json.null) (fun _ => none)
      = (none,
         [Event.initCall,
          Event.populateCall (DatabaseConfig.ConnectionString DatabaseConfig.zero),
          Event.finalizeCall])
    ∧ SetupTemplate (Exchange.completed 200 "200 OK" (Json.obj []))
        (Exchange.completed 204 "204 No Content" Json.null)
        (fun _ => some (Err.External "populate failed"))
      = (some (Err.External "populate failed"),
         [Event.initCall,
          Event.populateCall (DatabaseConfig.ConnectionString DatabaseConfig.zero)])
    ∧ SetupTemplate (Exchange.completed 423 "423 Locked" Json.null)
        (Exchange.completed 204 "204 No Content" Json.null) (fun _ => none)
      = (none, [Event.initCall])
    ∧ SetupTemplate (Exchange.completed 503 "503" Json.null)
        (Exchange.completed 204 "204 No Content" Json.null) (fun _ => none)
      = (some Err.ManagerNotReady, [Event.initCall]) := by
  have h1 := SetupTemplate_contract (Exchange.completed 200 "200 OK" (Json.obj []))
    (Exchange.completed 204 "204 No Content" Json.null) (fun _ => none)
  have h2 := SetupTemplate_contract (Exchange.completed 200 "200 OK" (Json.obj []))
    (Exchange.completed 204 "204 No Content" Json.null)
    (fun _ => some (Err.External "populate failed"))
  have h3 := SetupTemplate_contract (Exchange.completed 423 "423 Locked" Json.null)
    (Exchange.completed 204 "204 No Content" Json.null) (fun _ => none)
  have h4 := SetupTemplate_contract (Exchange.completed 503 "503" Json.null)
    (Exchange.completed 204 "204 No Content" Json.null) (fun _ => none)
  refine ⟨((h1.1 (by decide)).1 rfl).trans (by decide),
    ((h2.1 (by decide)).2 (Err.External "populate failed") rfl).1.trans (by decide),
    (h3.2.1 (by decide)).1,
    h4.2.2.1 Err.ManagerNotReady (by decide) (by decide)⟩

/-- C2: in SetupTemplateWithDBClient, once the handle was opened it is
closed exactly once on every exit path (ping failure, populate failure,
finalize failure, success); the liveness probe runs before populate, and a
probe failure returns the error without invoking populate or
FinalizeTemplate. -/
theorem SetupTemplateWithDBClient_handle_discipline (i f : Exchange)
    (pingErr populateErr : Option Err)
    (hInit : (InitializeTemplate i).2 = none) :
    (SetupTemplateWithDBClient i f none pingErr populateErr).2.count Event.closeCall = 1
    ∧ (SetupTemplateWithDBClient i f none pingErr populateErr).2.take 3
        = [Event.initCall,
           Event.openCall ((InitializeTemplate i).1.Config.ConnectionString),
           Event.pingCall]
    ∧ (∀ e : Err, pingErr = some e →
        (SetupTemplateWithDBClient i f none pingErr populateErr).1 = some e
        ∧ Event.populateDBCall ∉ (SetupTemplateWithDBClient i f none pingErr populateErr).2
        ∧ Event.finalizeCall ∉ (SetupTemplateWithDBClient i f none pingErr populateErr).2) := by
  rcases hI : InitializeTemplate i with ⟨t, err⟩
  rw [hI] at hInit
  have he : err = none := hInit
  subst he
  refine ⟨?_, ?_, ?_⟩
  · cases pingErr <;> cases populateErr <;>
      simp [SetupTemplateWithDBClient, hI, List.count_cons]
  · cases pingErr <;> cases populateErr <;>
      simp [SetupTemplateWithDBClient, hI]
  · intro e he
    subst he
    refine ⟨?_, ?_, ?_⟩ <;> simp [SetupTemplateWithDBClient, hI]

/-- Witness for C2 at concrete inputs: the ping-failure path closes the
handle once and skips populate and finalize; the success path also closes
it exactly once. -/
theorem SetupTemplateWithDBClient_handle_discipline_witness :
    (SetupTemplateWithDBClient (Exchange.completed 200 "200 OK" (Json.obj []))
        (Exchange.completed 204 "204" Json.null) none (some (Err.External "ping failed"))
        none).2.count Event.closeCall = 1
    ∧ (SetupTemplateWithDBClient (Exchange.completed 200 "200 OK" (Json.obj []))
        (Exchange.completed 204 "204" Json.null) none (some (Err.External "ping failed"))
        none).1 = some (Err.External "ping failed")
    ∧ Event.populateDBCall ∉
        (SetupTemplateWithDBClient (Exchange.completed 200 "200 OK" (Json.obj []))
          (Exchange.completed 204 "204" Json.null) none (some (Err.External "ping failed"))
          none).2
    ∧ (SetupTemplateWithDBClient (Exchange.completed 200 "200 OK" (Json.obj []))
        (Exchange.completed 204 "204" Json.null) none none none).2.count Event.closeCall
      = 1 := by
  have h1 := SetupTemplateWithDBClient_handle_discipline
    (Exchange.completed 200 "200 OK" (Json.obj []))
    (Exchange.completed 204 "204" Json.null) (some (Err.External "ping failed")) none
    (by decide)
  have h2 := SetupTemplateWithDBClient_handle_discipline
    (Exchange.completed 200 "200 OK" (Json.obj []))
    (Exchange.completed 204 "204" Json.null) none none (by decide)
  exact ⟨h1.1, (h1.2.2 (Err.External "ping failed") rfl).1,
    (h1.2.2 (Err.External "ping failed") rfl).2.1, h2.1⟩

/-- C6 counterexample: SetupTemplate propagates a populate error verbatim,
so a populate callback that itself returns the ErrTestNotFound sentinel
makes the operation return the TestNotFound kind. -/
theorem SetupTemplate_propagates_callback_tnf :
    (SetupTemplate (Exchange.completed 200 "200 OK" (Json.obj []))
        (Exchange.completed 204 "204 No Content" Json.null)
        (fun _ => some Err.TestNotFound)).1 = some Err.TestNotFound := by
  decide

/-- C6 as amended: ReturnTestDatabase maps 204 to success, 404 to
TemplateNotFound (not the reserved TestNotFound kind) and 503 to
ManagerNotReady; no operation ever produces the TestNotFound kind from a
response, and the setup wrappers return it only if a caller-supplied step
(populate, sql.Open, ping) itself returned that sentinel. -/
theorem testNotFound_never_classified :
    (∀ (st : String) (body : Json),
        ReturnTestDatabase (Exchange.completed 204 st body) = none
        ∧ ReturnTestDatabase (Exchange.completed 404 st body) = some Err.TemplateNotFound
        ∧ ReturnTestDatabase (Exchange.completed 503 st body) = some Err.ManagerNotReady)
    ∧ (∀ exch : Exchange, ReturnTestDatabase exch ≠ some Err.TestNotFound)
    ∧ (∀ exch : Exchange, (InitializeTemplate exch).2 ≠ some Err.TestNotFound)
    ∧ (∀ exch : Exchange, FinalizeTemplate exch ≠ some Err.TestNotFound)
    ∧ (∀ exch : Exchange, DiscardTemplate exch ≠ some Err.TestNotFound)
    ∧ (∀ exch : Exchange, (GetTestDatabase exch).2 ≠ some Err.TestNotFound)
    ∧ (∀ exch : Exchange, ResetAllTracking exch ≠ some Err.TestNotFound)
    ∧ (∀ (i f : Exchange) (p : String → Option Err),
        (∀ s, p s ≠ some Err.TestNotFound) →
        (SetupTemplate i f p).1 ≠ some Err.TestNotFound)
    ∧ (∀ (i f : Exchange) (oe pe le : Option Err),
        oe ≠ some Err.TestNotFound → pe ≠ some Err.TestNotFound →
        le ≠ some Err.TestNotFound →
        (SetupTemplateWithDBClient i f oe pe le).1 ≠ some Err.TestNotFound) := by
  refine ⟨?_, fun exch => FinalizeTemplate_ne_tnf exch, InitializeTemplate_snd_ne_tnf,
    FinalizeTemplate_ne_tnf, fun exch => FinalizeTemplate_ne_tnf exch,
    GetTestDatabase_snd_ne_tnf, ResetAllTracking_ne_tnf, ?_, ?_⟩
  · intro st body
    refine ⟨?_, ?_, ?_⟩ <;> simp [ReturnTestDatabase, doExch_nil_dest]
  · intro i f p hp h
    rcases hI : InitializeTemplate i with ⟨t, err⟩
    cases err with
    | none =>
      cases hpc : p (t.Config.ConnectionString) with
      | some e =>
        simp only [SetupTemplate, hI, hpc] at h
        exact hp (t.Config.ConnectionString) (hpc.trans (congrArg some (by simpa using h)))
      | none =>
        simp only [SetupTemplate, hI, hpc] at h
        exact FinalizeTemplate_ne_tnf f h
    | some e =>
      cases e
      case TestNotFound => exact InitializeTemplate_snd_ne_tnf i (by rw [hI])
      all_goals simp [SetupTemplate, hI] at h
  · intro i f oe pe le hoe hpe hle h
    rcases hI : InitializeTemplate i with ⟨t, err⟩
    cases err with
    | none =>
      cases oe with
      | some e =>
        simp only [SetupTemplateWithDBClient, hI] at h
        exact hoe (by rw [show e = Err.TestNotFound from by simpa using h])
      | none =>
        cases pe with
        | some e =>
          simp only [SetupTemplateWithDBClient, hI] at h
          exact hpe (by rw [show e = Err.TestNotFound from by simpa using h])
        | none =>
          cases le with
          | some e =>
            simp only [SetupTemplateWithDBClient, hI] at h
            exact hle (by rw [show e = Err.TestNotFound from by simpa using h])
          | none =>
            simp only [SetupTemplateWithDBClient, hI] at h
            exact FinalizeTemplate_ne_tnf f h
    | some e =>
      cases e
      case TestNotFound => exact InitializeTemplate_snd_ne_tnf i (by rw [hI])
      all_goals simp [SetupTemplateWithDBClient, hI] at h

/-- Witness for C6 (amended) at concrete inputs. -/
theorem testNotFound_never_classified_witness :
    ReturnTestDatabase (Exchange.completed 404 "404" Json.null) = some Err.TemplateNotFound
    ∧ (SetupTemplate (Exchange.completed 200 "200 OK" (Json.obj []))
        (Exchange.completed 204 "204" Json.null) (fun _ => none)).1
      ≠ some Err.TestNotFound
    ∧ (SetupTemplateWithDBClient (Exchange.completed 200 "200 OK" (Json.obj []))
        (Exchange.completed 204 "204" Json.null) none none none).1
      ≠ some Err.TestNotFound := by
  have h := testNotFound_never_classified
  exact ⟨(h.1 "404" Json.null).2.1,
    h.2.2.2.2.2.2.2.1 _ _ _ (fun s hs => Option.noConfusion hs),
    h.2.2.2.2.2.2.2.2 _ _ _ _ _ (fun hs => Option.noConfusion hs)
      (fun hs => Option.noConfusion hs) (fun hs => Option.noConfusion hs)⟩

end IntegresSQL
